import Mathlib

/-!
# Verification of the order/inventory core of the API-Microservices repository

Shallow embedding of:
* the Inventory ledger (`reserveStock`, `reduceStock`, `addStock`,
  `getAvailableStock`, the `beforeSave` hook) from the product service's
  Sequelize model;
* the order-event consumer handlers (`handleMessage`, `handleOrderPaid`,
  `handleOrderCancelled`, `handleOrderCreated`) of the product service;
* the Order aggregate (`calculateTotals`, `updateStatus`, `addItem`,
  `removeItem`, `applyDiscount`, `updatePayment`, `updateShipping`) from the
  order service's Mongoose model;
* the order HTTP controllers (`cancelOrder`, `addOrderItem`,
  `removeOrderItem`, `applyDiscount`);
* the `CircuitBreaker` resilience wrapper.

JavaScript numbers are modelled as `Int` (inventory counters, which the
schema constrains to integers) and `Rat` (monetary amounts).  Fallible
methods (`throw`) are modelled with `Except String`, carrying the exact
message thrown by the source; a thrown error leaves the caller's record
unchanged, which the embedding renders by returning no new state.
Timestamps (`Date.now()`, `new Date()`) are modelled as `Nat` values passed
in explicitly.
-/

namespace Micro

/-! ## Inventory ledger (product service, Sequelize model `Inventory`) -/

structure Inventory where
  quantity : Int
  reservedQuantity : Int
  inStock : Bool
  lastRestockDate : Option Nat
deriving DecidableEq

/-- The `beforeSave` hook: `inStock` is recomputed to `quantity > 0`
(`quantity <= 0` clears it) on every persist; every mutator ends in
`this.save()`. -/
def Inventory.save (inv : Inventory) : Inventory :=
  if inv.quantity ≤ 0 then { inv with inStock := false }
  else { inv with inStock := true }

/-- `getAvailableStock`: `Math.max(0, quantity - reservedQuantity)`. -/
def Inventory.getAvailableStock (inv : Inventory) : Int :=
  max 0 (inv.quantity - inv.reservedQuantity)

/-- Message of the throw in `reserveStock` when available stock is short. -/
def insufficientStockMsg : String :=
  "No hay suficiente stock disponible para reservar"

/-- `reduceStock(amount, isReserved)`: releasing a reservation
(`isReserved = true`) requires `reservedQuantity ≥ amount`; reducing real
stock requires `quantity ≥ amount`; non-positive amounts are rejected. -/
def Inventory.reduceStock (inv : Inventory) (amount : Int) (isReserved : Bool) :
    Except String Inventory :=
  if amount ≤ 0 then
    Except.error "La cantidad a reducir debe ser mayor que cero"
  else if isReserved then
    if inv.reservedQuantity < amount then
      Except.error "No hay suficiente cantidad reservada para reducir"
    else
      Except.ok (Inventory.save { inv with reservedQuantity := inv.reservedQuantity - amount })
  else
    if inv.quantity < amount then
      Except.error "No hay suficiente stock para reducir"
    else
      Except.ok (Inventory.save { inv with quantity := inv.quantity - amount })

/-- `reserveStock(amount)`: rejects non-positive amounts, then fails when
`getAvailableStock() < amount`, else `reservedQuantity += amount`. -/
def Inventory.reserveStock (inv : Inventory) (amount : Int) :
    Except String Inventory :=
  if amount ≤ 0 then
    Except.error "La cantidad a reservar debe ser mayor que cero"
  else if inv.getAvailableStock < amount then
    Except.error insufficientStockMsg
  else
    Except.ok (Inventory.save { inv with reservedQuantity := inv.reservedQuantity + amount })

/-- `addStock(amount)`: rejects non-positive amounts, else
`quantity += amount` and `lastRestockDate = new Date()`. -/
def Inventory.addStock (inv : Inventory) (amount : Int) (now : Nat) :
    Except String Inventory :=
  if amount ≤ 0 then
    Except.error "La cantidad a agregar debe ser mayor que cero"
  else
    Except.ok (Inventory.save
      { inv with quantity := inv.quantity + amount, lastRestockDate := some now })

/-! ## Order-event consumer, per-item effect on one inventory row

Each handler loops over the event's items; for one item it looks the row up
and runs the inventory methods, catching any thrown error (the row is then
left as it was, and processing continues).  The per-item effect on a single
row is embedded below. -/

/-- `handleOrderCreated`, per item: `reserveStock(quantity)`, errors
swallowed. -/
def handleOrderCreatedItem (inv : Inventory) (quantity : Int) : Inventory :=
  match inv.reserveStock quantity with
  | Except.ok inv1 => inv1
  | Except.error _ => inv

/-- `handleOrderPaid`, per item: `reduceStock(quantity, true)` (release the
reservation) then `reduceStock(quantity, false)` (real decrement); an error
thrown by either call is caught outside the pair, so a success of the first
call persists even when the second fails. -/
def handleOrderPaidItem (inv : Inventory) (quantity : Int) : Inventory :=
  match inv.reduceStock quantity true with
  | Except.error _ => inv
  | Except.ok inv1 =>
    match inv1.reduceStock quantity false with
    | Except.error _ => inv1
    | Except.ok inv2 => inv2

/-- `handleOrderCancelled`, per item: `reduceStock(quantity, true)` only,
errors swallowed. -/
def handleOrderCancelledItem (inv : Inventory) (quantity : Int) : Inventory :=
  match inv.reduceStock quantity true with
  | Except.ok inv1 => inv1
  | Except.error _ => inv

/-- `handleOrderRefunded`, per item: `addStock(quantity)`, errors
swallowed. -/
def handleOrderRefundedItem (inv : Inventory) (quantity : Int) (now : Nat) :
    Inventory :=
  match inv.addStock quantity now with
  | Except.ok inv1 => inv1
  | Except.error _ => inv

end Micro

namespace Micro

/-! ### Sample data -/

/-- An inventory row with `quantity = 10`, `reservedQuantity = 0`. -/
def inv10 : Inventory := { quantity := 10, reservedQuantity := 0, inStock := true, lastRestockDate := none }

end Micro

namespace Micro

/-! ### Arbitrary sequences of inventory mutations

The consumer catches every error thrown by an inventory method and keeps
processing, so a failed operation leaves the row as it was.  `InvOp`
enumerates the three mutators, `applyInvOp` is one such guarded call, and
`runInvOps` an arbitrary interleaving (covering duplicate deliveries of the
same event). -/

inductive InvOp where
  | reserve (amount : Int)
  | reduce (amount : Int) (isReserved : Bool)
  | add (amount : Int) (now : Nat)
deriving DecidableEq

/-- Apply one inventory operation, swallowing a thrown error (the row is
then unchanged), as every consumer handler does. -/
def applyInvOp (inv : Inventory) (op : InvOp) : Inventory :=
  match op with
  | InvOp.reserve amount =>
    match inv.reserveStock amount with
    | Except.ok inv1 => inv1
    | Except.error _ => inv
  | InvOp.reduce amount isReserved =>
    match inv.reduceStock amount isReserved with
    | Except.ok inv1 => inv1
    | Except.error _ => inv
  | InvOp.add amount now =>
    match inv.addStock amount now with
    | Except.ok inv1 => inv1
    | Except.error _ => inv

/-- Run a sequence of inventory operations, left to right. -/
def runInvOps (inv : Inventory) (ops : List InvOp) : Inventory :=
  ops.foldl applyInvOp inv

end Micro

namespace Micro

/-! ## Order aggregate (order service, Mongoose model `Order`) -/

inductive Status where
  | pending | processing | payment_pending | paid | shipped | delivered
  | completed | cancelled | refunded | failed | on_hold
deriving DecidableEq, BEq

/-- Rendering of a status into the string stored in `adminNotes` lines. -/
def statusStr : Status → String
  | Status.pending => "pending"
  | Status.processing => "processing"
  | Status.payment_pending => "payment_pending"
  | Status.paid => "paid"
  | Status.shipped => "shipped"
  | Status.delivered => "delivered"
  | Status.completed => "completed"
  | Status.cancelled => "cancelled"
  | Status.refunded => "refunded"
  | Status.failed => "failed"
  | Status.on_hold => "on_hold"

inductive PayStatus where
  | pending | processing | completed | failed | refunded | cancelled
deriving DecidableEq, BEq

inductive ShipStatus where
  | pending | processing | shipped | delivered | returned | cancelled
deriving DecidableEq, BEq

structure Payment where
  method : String
  transactionId : Option String
  amount : Rat
  status : PayStatus
  paidAt : Option Nat
deriving DecidableEq

structure Shipping where
  method : String
  carrier : Option String
  trackingNumber : Option String
  cost : Rat
  status : ShipStatus
  shippedAt : Option Nat
  deliveredAt : Option Nat
deriving DecidableEq

inductive DiscountType where
  | percentage | fixed_amount | free_shipping
deriving DecidableEq, BEq

structure Discount where
  code : String
  type : DiscountType
  amount : Rat
  description : String
deriving DecidableEq

structure OrderItem where
  productId : String
  sku : String
  name : String
  price : Rat
  salePrice : Rat
  quantity : Rat
  subtotal : Rat
  taxes : Rat
  discount : Rat
  total : Rat
  isDigital : Bool
  weight : Rat
deriving DecidableEq

structure Order where
  orderNumber : String
  userId : String
  status : Status
  items : List OrderItem
  subtotal : Rat
  taxAmount : Rat
  discountAmount : Rat
  shippingAmount : Rat
  total : Rat
  payment : Payment
  shipping : Shipping
  discounts : List Discount
  adminNotes : String
  completedAt : Option Nat
  cancelledAt : Option Nat
deriving DecidableEq

/-- The per-item body of `calculateTotals`: effective price is
`salePrice > 0 ? salePrice : price`; `item.subtotal = price * quantity`;
`item.total = item.subtotal + item.taxes - item.discount`. -/
def calcItem (it : OrderItem) : OrderItem :=
  let price := if it.salePrice > 0 then it.salePrice else it.price
  let itemSubtotal := price * it.quantity
  { it with
    subtotal := itemSubtotal,
    total := itemSubtotal + it.taxes - it.discount }

/-- `calculateTotals`: recompute every item's `subtotal`/`total`, sum item
subtotals and taxes into `subtotal`/`taxAmount`, and set
`total = subtotal + taxAmount - discountAmount + shippingAmount`. -/
def Order.calculateTotals (o : Order) : Order :=
  let items := o.items.map calcItem
  let subtotal := (items.map (fun it => it.subtotal)).sum
  let taxAmount := (items.map (fun it => it.taxes)).sum
  { o with
    items := items,
    subtotal := subtotal,
    taxAmount := taxAmount,
    total := subtotal + taxAmount - o.discountAmount + o.shippingAmount }

/-- `updateStatus(newStatus, notes)`: set the status; record
`completedAt` / `cancelledAt` / `shipping.shippedAt` /
`shipping.deliveredAt` / `payment.paidAt` (first else-if branch that
matches, and only when not already set); when notes are given, append a
`ts - prev → new: notes` line to `adminNotes`. -/
def Order.updateStatus (o : Order) (newStatus : Status) (notes : String)
    (now : Nat) : Order :=
  let prevStatus := o.status
  let o1 := { o with status := newStatus }
  let o2 :=
    if newStatus = Status.completed ∧ o1.completedAt = none then
      { o1 with completedAt := some now }
    else if newStatus = Status.cancelled ∧ o1.cancelledAt = none then
      { o1 with cancelledAt := some now }
    else if newStatus = Status.shipped ∧ o1.shipping.shippedAt = none then
      { o1 with shipping := { o1.shipping with shippedAt := some now } }
    else if newStatus = Status.delivered ∧ o1.shipping.deliveredAt = none then
      { o1 with shipping := { o1.shipping with deliveredAt := some now } }
    else if newStatus = Status.paid ∧ o1.payment.paidAt = none then
      { o1 with payment := { o1.payment with paidAt := some now } }
    else o1
  if notes ≠ "" then
    { o2 with adminNotes :=
      if o2.adminNotes ≠ "" then
        o2.adminNotes ++ "\n" ++ toString now ++ " - " ++ statusStr prevStatus
          ++ " → " ++ statusStr newStatus ++ ": " ++ notes
      else
        toString now ++ " - " ++ statusStr prevStatus ++ " → "
          ++ statusStr newStatus ++ ": " ++ notes }
  else o2

/-- The `findIndex`-then-update body of `addItem`: the first item with the
same `productId` gets `quantity += item.quantity`,
`subtotal = price * quantity`, `total = subtotal + taxes - discount`
(note: `price`, not the sale price); otherwise the new item is appended
with `subtotal = price * quantity` and
`total = price * quantity + (taxes or 0) - (discount or 0)`. -/
def addItemAux : List OrderItem → OrderItem → List OrderItem
  | [], item =>
    [{ item with
       subtotal := item.price * item.quantity,
       total := item.price * item.quantity + item.taxes - item.discount }]
  | i :: rest, item =>
    if i.productId = item.productId then
      { i with
        quantity := i.quantity + item.quantity,
        subtotal := i.price * (i.quantity + item.quantity),
        total := i.price * (i.quantity + item.quantity) + i.taxes - i.discount }
        :: rest
    else i :: addItemAux rest item

/-- `addItem(item)`: merge-or-append the item, then `calculateTotals()`. -/
def Order.addItem (o : Order) (item : OrderItem) : Order :=
  Order.calculateTotals { o with items := addItemAux o.items item }

/-- `splice` of the first item with the given product id. -/
def removeFirstItem (productId : String) : List OrderItem → List OrderItem
  | [] => []
  | i :: rest =>
    if i.productId = productId then rest else i :: removeFirstItem productId rest

/-- `removeItem(productId)`: when `findIndex` hits (index ≥ 0), splice the
item out and `calculateTotals()`; otherwise return `this` untouched. -/
def Order.removeItem (o : Order) (productId : String) : Order :=
  if o.items.any (fun i => i.productId == productId) then
    Order.calculateTotals { o with items := removeFirstItem productId o.items }
  else o

/-- `applyDiscount(discount)`: push the discount, add to `discountAmount`
(`subtotal * amount / 100` for percentage, the raw amount for fixed,
the whole `shippingAmount` — which is then zeroed — for free shipping),
then recompute `total`. -/
def Order.applyDiscount (o : Order) (d : Discount) : Order :=
  let o1 := { o with discounts := o.discounts ++ [d] }
  let o2 :=
    match d.type with
    | DiscountType.percentage =>
      { o1 with discountAmount := o1.discountAmount + o1.subtotal * d.amount / 100 }
    | DiscountType.fixed_amount =>
      { o1 with discountAmount := o1.discountAmount + d.amount }
    | DiscountType.free_shipping =>
      { o1 with
        discountAmount := o1.discountAmount + o1.shippingAmount,
        shippingAmount := 0 }
  { o2 with total := o2.subtotal + o2.taxAmount - o2.discountAmount + o2.shippingAmount }

/-- Partial payment update (`{ ...this.payment, ...paymentInfo }`): a field
present in the update overrides the stored one. -/
structure PaymentInfo where
  status : Option PayStatus := none
  transactionId : Option String := none
  amount : Option Rat := none
deriving DecidableEq

def mergePayment (p : Payment) (info : PaymentInfo) : Payment :=
  { p with
    status := info.status.getD p.status,
    transactionId := match info.transactionId with
      | some t => some t
      | none => p.transactionId,
    amount := info.amount.getD p.amount }

/-- `updatePayment(paymentInfo)`: merge into `payment`; when the update's
status is `completed` and the order was `payment_pending`, run
`updateStatus('paid', 'Pago recibido y confirmado')`. -/
def Order.updatePayment (o : Order) (info : PaymentInfo) (now : Nat) : Order :=
  let o1 := { o with payment := mergePayment o.payment info }
  if info.status = some PayStatus.completed ∧ o.status = Status.payment_pending then
    Order.updateStatus o1 Status.paid "Pago recibido y confirmado" now
  else o1

/-- Partial shipping update (`{ ...this.shipping, ...shippingInfo }`). -/
structure ShippingInfo where
  status : Option ShipStatus := none
  carrier : Option String := none
  trackingNumber : Option String := none
deriving DecidableEq

def mergeShipping (s : Shipping) (info : ShippingInfo) : Shipping :=
  { s with
    status := info.status.getD s.status,
    carrier := match info.carrier with
      | some c => some c
      | none => s.carrier,
    trackingNumber := match info.trackingNumber with
      | some t => some t
      | none => s.trackingNumber }

/-- `updateShipping(shippingInfo)`: merge into `shipping`; `shipped` on a
`processing` order runs `updateStatus('shipped', ...)`, `delivered` on a
`shipped` order runs `updateStatus('delivered', ...)`. -/
def Order.updateShipping (o : Order) (info : ShippingInfo) (now : Nat) : Order :=
  let o1 := { o with shipping := mergeShipping o.shipping info }
  if info.status = some ShipStatus.shipped ∧ o.status = Status.processing then
    Order.updateStatus o1 Status.shipped "Orden enviada" now
  else if info.status = some ShipStatus.delivered ∧ o.status = Status.shipped then
    Order.updateStatus o1 Status.delivered "Orden entregada" now
  else o1

/-- The order invariant of the spec:
`total == subtotal + taxAmount - discountAmount + shippingAmount`. -/
def totalEq (o : Order) : Prop :=
  o.total = o.subtotal + o.taxAmount - o.discountAmount + o.shippingAmount

instance (o : Order) : Decidable (totalEq o) := by
  unfold totalEq
  infer_instance

/-! ## Order HTTP controllers (auth-service routes file) -/

structure User where
  id : String
  role : String
deriving DecidableEq

/-- `req.user.role === 'admin'`. -/
def isAdmin (u : User) : Bool := u.role == "admin"

/-- Statuses on which item/discount mutation is rejected by the
controllers. -/
def lockedStatuses : List Status :=
  [Status.shipped, Status.delivered, Status.completed, Status.cancelled,
   Status.refunded]

/-- Statuses on which `cancelOrder` refuses outright (checked before any
role test). -/
def cancelBlockedStatuses : List Status :=
  [Status.delivered, Status.completed, Status.cancelled, Status.refunded]

/-- `cancelOrder` controller: terminal-status check, then the
admin-or-owner permission check, then the owner-only status restriction
(`pending` / `payment_pending`), then
`updateStatus('cancelled', reason || 'Cancelado por el usuario/administrador')`. -/
def cancelOrder (u : User) (o : Order) (reason : Option String) (now : Nat) :
    Except String Order :=
  if cancelBlockedStatuses.contains o.status then
    Except.error "Esta orden no puede ser cancelada"
  else if !(isAdmin u || u.id == o.userId) then
    Except.error "No tienes permiso para cancelar esta orden"
  else if !isAdmin u && !([Status.pending, Status.payment_pending].contains o.status) then
    Except.error "No puedes cancelar una orden en este estado"
  else
    Except.ok (o.updateStatus Status.cancelled
      (reason.getD "Cancelado por el usuario/administrador") now)

/-- Shape of the product-lookup response used by `addOrderItem`; optional
fields go through `|| 0` / `|| false` defaulting when the item is built. -/
structure ProductInfo where
  sku : String
  name : String
  price : Rat
  salePrice : Option Rat := none
  featuredImage : Option String := none
  isDigital : Option Bool := none
  weight : Option Rat := none
deriving DecidableEq

/-- `addOrderItem` controller: input validation
(`!productId || !quantity || quantity <= 0`), then the locked-status check,
then admin-or-owner, then `order.addItem(newItem)`. -/
def addOrderItemCtrl (u : User) (o : Order) (productId : String)
    (quantity : Rat) (info : ProductInfo) : Except String Order :=
  if productId = "" ∨ quantity ≤ 0 then
    Except.error "Se requiere ID de producto y cantidad válida"
  else if lockedStatuses.contains o.status then
    Except.error "No se puede modificar una orden en este estado"
  else if !(isAdmin u || u.id == o.userId) then
    Except.error "No tienes permiso para modificar esta orden"
  else
    Except.ok (o.addItem
      { productId := productId, sku := info.sku, name := info.name,
        price := info.price, salePrice := info.salePrice.getD 0,
        quantity := quantity, subtotal := 0, taxes := 0, discount := 0,
        total := 0, isDigital := info.isDigital.getD false,
        weight := info.weight.getD 0 })

/-- `removeOrderItem` controller: locked-status check, admin-or-owner,
item-presence check, then `order.removeItem(productId)`. -/
def removeOrderItemCtrl (u : User) (o : Order) (productId : String) :
    Except String Order :=
  if lockedStatuses.contains o.status then
    Except.error "No se puede modificar una orden en este estado"
  else if !(isAdmin u || u.id == o.userId) then
    Except.error "No tienes permiso para modificar esta orden"
  else if !(o.items.any (fun i => i.productId == productId)) then
    Except.error "Producto no encontrado en la orden"
  else
    Except.ok (o.removeItem productId)

/-- `applyDiscount` controller: code presence, locked-status check,
admin-or-owner, then `order.applyDiscount` with the simulated 10%
percentage discount. -/
def applyDiscountCtrl (u : User) (o : Order) (code : String) :
    Except String Order :=
  if code = "" then
    Except.error "Se requiere código de descuento"
  else if lockedStatuses.contains o.status then
    Except.error "No se puede modificar una orden en este estado"
  else if !(isAdmin u || u.id == o.userId) then
    Except.error "No tienes permiso para modificar esta orden"
  else
    Except.ok (o.applyDiscount
      { code := code, type := DiscountType.percentage, amount := 10,
        description := "Descuento del 10%" })

end Micro

namespace Micro

/-! ## Resilience wrapper: `CircuitBreaker`

`fire` is modelled as a pure transition on the breaker's mutable fields,
parametrised by the clock value `now` (`Date.now()`) and by the outcome of
`_executeWithTimeout` (`true` = the awaited call resolved, `false` = it
rejected or timed out; a timeout counts as a failure).  The default
`_defaultIsFailure` classifier is used: every error counts towards the
threshold.  Whether the wrapped function was invoked — versus the request
being short-circuited by `_handleOpenCircuit`, which raises a
`ServiceError` or runs the fallback without touching the state — is
returned alongside the new state. -/

inductive CircuitState where
  | CLOSED | OPEN | HALF_OPEN
deriving DecidableEq, BEq

structure CBConfig where
  failureThreshold : Nat := 5
  resetTimeout : Nat := 30000
  successThreshold : Nat := 2
deriving DecidableEq

structure CB where
  state : CircuitState
  failureCount : Nat
  successCount : Nat
  lastFailureTime : Option Nat
deriving DecidableEq

/-- The constructor's initial state: `CLOSED`, zero counters. -/
def CB.initial : CB :=
  { state := CircuitState.CLOSED, failureCount := 0, successCount := 0,
    lastFailureTime := none }

/-- `_toOpen`: state `OPEN`, counters reset, `lastFailureTime = Date.now()`. -/
def CB.toOpen (now : Nat) : CB :=
  { state := CircuitState.OPEN, failureCount := 0, successCount := 0,
    lastFailureTime := some now }

/-- `_toHalfOpen`: state `HALF_OPEN`, counters reset (`lastFailureTime`
kept). -/
def CB.toHalfOpen (s : CB) : CB :=
  { s with
    state := CircuitState.HALF_OPEN,
    failureCount := 0,
    successCount := 0 }

/-- `_toClose`: state `CLOSED`, counters reset, `lastFailureTime = null`. -/
def CB.toClose : CB :=
  { state := CircuitState.CLOSED, failureCount := 0, successCount := 0,
    lastFailureTime := none }

/-- `_handleSuccess`: in `HALF_OPEN`, bump `successCount` and close once it
reaches `successThreshold`; in `CLOSED`, reset the failure counter. -/
def CB.handleSuccess (cfg : CBConfig) (s : CB) : CB :=
  match s.state with
  | CircuitState.HALF_OPEN =>
    let successCount := s.successCount + 1
    if cfg.successThreshold ≤ successCount then CB.toClose
    else { s with successCount := successCount }
  | CircuitState.CLOSED => { s with failureCount := 0 }
  | CircuitState.OPEN => s

/-- `_handleFailure` with the default classifier (every error counts):
bump `failureCount`, stamp `lastFailureTime`, then `CLOSED` trips to `OPEN`
at the threshold and `HALF_OPEN` trips to `OPEN` on any failure. -/
def CB.handleFailure (cfg : CBConfig) (s : CB) (now : Nat) : CB :=
  let s1 := { s with
    failureCount := s.failureCount + 1,
    lastFailureTime := some now }
  if s1.state = CircuitState.CLOSED ∧ cfg.failureThreshold ≤ s1.failureCount then
    CB.toOpen now
  else if s1.state = CircuitState.HALF_OPEN then
    CB.toOpen now
  else s1

/-- Result of one `fire()` as far as the wrapped function is concerned. -/
inductive FireResult where
  | invoked (success : Bool)
  | shortCircuited
deriving DecidableEq

/-- The shared tail of `fire` once the call is let through: run the request
and dispatch on the outcome. -/
def CB.handleCall (cfg : CBConfig) (s : CB) (now : Nat) (outcome : Bool) :
    CB × FireResult :=
  (if outcome then CB.handleSuccess cfg s else CB.handleFailure cfg s now,
   FireResult.invoked outcome)

/-- `fire()`: in `OPEN`, either move to `HALF_OPEN` and let the call
through when `Date.now() - lastFailureTime > resetTimeout`, or
short-circuit via `_handleOpenCircuit` (state untouched); otherwise let the
call through. -/
def CB.fire (cfg : CBConfig) (s : CB) (now : Nat) (outcome : Bool) :
    CB × FireResult :=
  if s.state = CircuitState.OPEN then
    match s.lastFailureTime with
    | some t =>
      if cfg.resetTimeout < now - t then
        CB.handleCall cfg (CB.toHalfOpen s) now outcome
      else (s, FireResult.shortCircuited)
    | none => (s, FireResult.shortCircuited)
  else CB.handleCall cfg s now outcome

/-! ## Order-event consumer: acknowledgment protocol (`handleMessage`)

The raw message body either fails `JSON.parse` (a `SyntaxError`) or yields
an event envelope; the dispatched handler either completes or throws.  The
`catch` block rejects a `SyntaxError` without requeue (dead-letter) and
requeues everything else; `channel.ack` runs only after the dispatch
returned. -/

/-- Errors thrown inside the consumer's `try` block. -/
inductive JsError where
  | syntaxError
  | processingError (msg : String)
deriving DecidableEq

/-- Event envelope: `{ event, data }` with the payload left abstract. -/
structure Envelope where
  event : String
deriving DecidableEq

/-- A raw message body: either malformed JSON or a well-formed envelope. -/
inductive RawMsg where
  | malformed
  | wellFormed (env : Envelope)
deriving DecidableEq

/-- `JSON.parse(msg.content.toString())`: a malformed body throws
`SyntaxError`. -/
def parseContent : RawMsg → Except JsError Envelope
  | RawMsg.malformed => Except.error JsError.syntaxError
  | RawMsg.wellFormed env => Except.ok env

/-- What `handleMessage` does to the message. -/
inductive MsgOutcome where
  | ack
  | nackNoRequeue
  | nackRequeue
deriving DecidableEq

/-- `handleMessage`, with the event dispatch abstracted into `process`:
parse, dispatch, then `ack`; on a thrown error, `nack(msg, false, false)`
for a `SyntaxError` and `nack(msg, false, true)` otherwise. -/
def handleMessage (msg : RawMsg) (process : Envelope → Except JsError Unit) :
    MsgOutcome :=
  let tryBlock : Except JsError Unit :=
    match parseContent msg with
    | Except.ok env => process env
    | Except.error e => Except.error e
  match tryBlock with
  | Except.ok _ => MsgOutcome.ack
  | Except.error JsError.syntaxError => MsgOutcome.nackNoRequeue
  | Except.error (JsError.processingError _) => MsgOutcome.nackRequeue

end Micro

namespace Micro

/-! ### Sample order-side data -/

def sampleItem : OrderItem :=
  { productId := "p1", sku := "SKU1", name := "Widget", price := 50,
    salePrice := 0, quantity := 2, subtotal := 100, taxes := 0,
    discount := 0, total := 100, isDigital := false, weight := 1 }

def sampleOrder : Order :=
  { orderNumber := "ORD-1-AAAA", userId := "u1", status := Status.pending,
    items := [sampleItem], subtotal := 100, taxAmount := 0,
    discountAmount := 0, shippingAmount := 0, total := 100,
    payment := { method := "cash", transactionId := none, amount := 100,
                 status := PayStatus.pending, paidAt := none },
    shipping := { method := "standard", carrier := none,
                  trackingNumber := none, cost := 0,
                  status := ShipStatus.pending, shippedAt := none,
                  deliveredAt := none },
    discounts := [], adminNotes := "", completedAt := none,
    cancelledAt := none }

/-- A non-admin order owner. -/
def owner1 : User := { id := "u1", role := "customer" }

/-- An admin principal. -/
def admin1 : User := { id := "staff9", role := "admin" }

end Micro

namespace Micro

@[simp] theorem save_quantity (inv : Inventory) :
    (Inventory.save inv).quantity = inv.quantity := by
  unfold Inventory.save
  split <;> rfl

@[simp] theorem save_reservedQuantity (inv : Inventory) :
    (Inventory.save inv).reservedQuantity = inv.reservedQuantity := by
  unfold Inventory.save
  split <;> rfl

theorem applyInvOp_nonneg (inv : Inventory) (op : InvOp)
    (hq : 0 ≤ inv.quantity) (hr : 0 ≤ inv.reservedQuantity) :
    0 ≤ (applyInvOp inv op).quantity ∧ 0 ≤ (applyInvOp inv op).reservedQuantity := by
  cases op <;>
    simp only [applyInvOp, Inventory.reserveStock, Inventory.reduceStock,
      Inventory.addStock, Inventory.getAvailableStock] <;>
    split_ifs <;>
    try simp_all
  all_goals omega

/-! ### Order-side helper lemmas -/

@[simp] theorem calcItem_idem (it : OrderItem) :
    calcItem (calcItem it) = calcItem it := by
  simp [calcItem]

@[simp] theorem calcItem_comp : calcItem ∘ calcItem = calcItem :=
  funext calcItem_idem

theorem totalEq_calculateTotals (o : Order) : totalEq o.calculateTotals := by
  simp [totalEq, Order.calculateTotals]

theorem updateStatus_money (o : Order) (ns : Status) (notes : String)
    (now : Nat) :
    (o.updateStatus ns notes now).subtotal = o.subtotal ∧
    (o.updateStatus ns notes now).taxAmount = o.taxAmount ∧
    (o.updateStatus ns notes now).discountAmount = o.discountAmount ∧
    (o.updateStatus ns notes now).shippingAmount = o.shippingAmount ∧
    (o.updateStatus ns notes now).total = o.total := by
  simp only [Order.updateStatus]
  repeat' split
  all_goals exact ⟨rfl, rfl, rfl, rfl, rfl⟩

theorem updateStatus_cancelled (o : Order) (notes : String) (now : Nat) :
    (o.updateStatus Status.cancelled notes now).status = Status.cancelled ∧
    (o.updateStatus Status.cancelled notes now).cancelledAt.isSome = true := by
  simp only [Order.updateStatus]
  repeat' split
  all_goals constructor
  all_goals try rfl
  all_goals simp_all [Option.isSome_iff_ne_none]

theorem totalEq_updateStatus (o : Order) (ns : Status) (notes : String)
    (now : Nat) (h : totalEq o) : totalEq (o.updateStatus ns notes now) := by
  have hm := updateStatus_money o ns notes now
  unfold totalEq at h ⊢
  rw [hm.2.2.2.2, hm.1, hm.2.1, hm.2.2.1, hm.2.2.2.1]
  exact h

theorem halfOpen_success_run (cfg : CBConfig) :
    ∀ (k : Nat) (s : CB) (now : Nat), s.state = CircuitState.HALF_OPEN →
      s.successCount + k = cfg.successThreshold → 1 ≤ k →
      ((fun st => (CB.fire cfg st now true).1)^[k] s).state =
        CircuitState.CLOSED := by
  intro k
  induction k with
  | zero => intro s now _ _ h1; omega
  | succ k ih =>
    intro s now hs hsum _
    rw [Function.iterate_succ_apply]
    have hfire : (CB.fire cfg s now true).1 = CB.handleSuccess cfg s := by
      simp [CB.fire, CB.handleCall, hs]
    rw [hfire]
    unfold CB.handleSuccess
    rw [hs]
    by_cases hk : k = 0
    · subst hk
      rw [if_pos (by omega)]
      simp [CB.toClose]
    · rw [if_neg (by omega)]
      exact ih _ now rfl
        (show s.successCount + 1 + k = cfg.successThreshold by omega)
        (by omega)

end Micro

/-- C1: starting from `quantity = 10, reservedQuantity = 0`, `reserveStock 3`
succeeds with `reservedQuantity = 3`, `quantity = 10` and available stock 7;
running the `order.paid` per-item handling on that state ends with
`quantity = 7, reservedQuantity = 0`; running the `order.cancelled`
per-item handling instead ends with `quantity = 10, reservedQuantity = 0`. -/
theorem reservation_commit_symmetry :
    ∃ inv1, Micro.inv10.reserveStock 3 = Except.ok inv1 ∧
      inv1.reservedQuantity = 3 ∧ inv1.quantity = 10 ∧
      inv1.getAvailableStock = 7 ∧
      (Micro.handleOrderPaidItem inv1 3).quantity = 7 ∧
      (Micro.handleOrderPaidItem inv1 3).reservedQuantity = 0 ∧
      (Micro.handleOrderCancelledItem inv1 3).quantity = 10 ∧
      (Micro.handleOrderCancelledItem inv1 3).reservedQuantity = 0 := by
  refine ⟨_, rfl, ?_, ?_, ?_, ?_, ?_, ?_, ?_⟩ <;> decide

/-- C3: for a positive amount, `reserveStock` fails with the
`InsufficientStock` error exactly when `availableStock < amount` (the record
is then unchanged, the embedding returning no new state); otherwise it
succeeds, leaving `quantity` unchanged and increasing `reservedQuantity` by
the amount. -/
theorem reserveStock_spec (inv : Micro.Inventory) (amount : Int)
    (hpos : 0 < amount) :
    (inv.getAvailableStock < amount →
      inv.reserveStock amount = Except.error Micro.insufficientStockMsg) ∧
    (¬ inv.getAvailableStock < amount →
      ∃ inv1, inv.reserveStock amount = Except.ok inv1 ∧
        inv1.quantity = inv.quantity ∧
        inv1.reservedQuantity = inv.reservedQuantity + amount) := by
  constructor
  · intro hlt
    simp [Micro.Inventory.reserveStock, not_le.mpr hpos, hlt]
  · intro hge
    refine ⟨Micro.Inventory.save
      { inv with reservedQuantity := inv.reservedQuantity + amount }, ?_, ?_, ?_⟩
    · simp [Micro.Inventory.reserveStock, not_le.mpr hpos, hge]
    · unfold Micro.Inventory.save
      split <;> rfl
    · unfold Micro.Inventory.save
      split <;> rfl

/-- Witness for C3 at `inv10`, `amount = 3` (success branch) packaged with
the failure branch at `amount = 11`. -/
theorem reserveStock_spec_witness :
    (Micro.inv10.reserveStock 11 = Except.error Micro.insufficientStockMsg) ∧
    (∃ inv1, Micro.inv10.reserveStock 3 = Except.ok inv1 ∧
      inv1.quantity = Micro.inv10.quantity ∧
      inv1.reservedQuantity = Micro.inv10.reservedQuantity + 3) := by
  constructor
  · exact (reserveStock_spec Micro.inv10 11 (by decide)).1 (by decide)
  · exact (reserveStock_spec Micro.inv10 3 (by decide)).2 (by decide)

/-- C8: starting from non-negative counters, any sequence of
`reserveStock` / `reduceStock` / `addStock` operations with the consumer's
per-operation error swallowing — duplicate `order.paid` applications
included — keeps `quantity ≥ 0` and `reservedQuantity ≥ 0`: each operation
rejects (throws, leaving the row unchanged) any amount exceeding the
corresponding counter before mutating it. -/
theorem inventory_nonneg_under_replay (inv : Micro.Inventory)
    (ops : List Micro.InvOp)
    (hq : 0 ≤ inv.quantity) (hr : 0 ≤ inv.reservedQuantity) :
    0 ≤ (Micro.runInvOps inv ops).quantity ∧
      0 ≤ (Micro.runInvOps inv ops).reservedQuantity := by
  induction ops generalizing inv with
  | nil => exact ⟨hq, hr⟩
  | cons op rest ih =>
    have h1 := Micro.applyInvOp_nonneg inv op hq hr
    simpa [Micro.runInvOps] using ih (Micro.applyInvOp inv op) h1.1 h1.2

/-- Witness for C8: a doubled `order.paid` replay (release 3, reduce 3,
release 3, reduce 3) after a single reservation of 3 out of 10 keeps both
counters non-negative. -/
theorem inventory_nonneg_under_replay_witness :
    0 ≤ (Micro.runInvOps Micro.inv10
      [Micro.InvOp.reserve 3, Micro.InvOp.reduce 3 true,
       Micro.InvOp.reduce 3 false, Micro.InvOp.reduce 3 true,
       Micro.InvOp.reduce 3 false]).quantity ∧
    0 ≤ (Micro.runInvOps Micro.inv10
      [Micro.InvOp.reserve 3, Micro.InvOp.reduce 3 true,
       Micro.InvOp.reduce 3 false, Micro.InvOp.reduce 3 true,
       Micro.InvOp.reduce 3 false]).reservedQuantity :=
  inventory_nonneg_under_replay Micro.inv10
    [Micro.InvOp.reserve 3, Micro.InvOp.reduce 3 true,
     Micro.InvOp.reduce 3 false, Micro.InvOp.reduce 3 true,
     Micro.InvOp.reduce 3 false] (by decide) (by decide)

/-- C2: the invariant
`total == subtotal + taxAmount - discountAmount + shippingAmount` holds
after every mutating operation of the Order aggregate: the
totals-recomputing operations (`calculateTotals`, `addItem`, `removeItem`
on a present item, `applyDiscount`) establish it outright, and the
remaining operations (`removeItem` on an absent item, `updateStatus`,
`updatePayment`, `updateShipping`) keep it from the state before the
call. -/
theorem order_totals_invariant (o : Micro.Order) (h : Micro.totalEq o)
    (item : Micro.OrderItem) (pid : String) (d : Micro.Discount)
    (ns : Micro.Status) (notes : String) (now : Nat)
    (pinfo : Micro.PaymentInfo) (sinfo : Micro.ShippingInfo) :
    Micro.totalEq o.calculateTotals ∧
    Micro.totalEq (o.addItem item) ∧
    Micro.totalEq (o.removeItem pid) ∧
    Micro.totalEq (o.applyDiscount d) ∧
    Micro.totalEq (o.updateStatus ns notes now) ∧
    Micro.totalEq (o.updatePayment pinfo now) ∧
    Micro.totalEq (o.updateShipping sinfo now) := by
  refine ⟨Micro.totalEq_calculateTotals o, Micro.totalEq_calculateTotals _,
    ?_, ?_, Micro.totalEq_updateStatus o ns notes now h, ?_, ?_⟩
  · unfold Micro.Order.removeItem
    split
    · exact Micro.totalEq_calculateTotals _
    · exact h
  · rfl
  · simp only [Micro.Order.updatePayment]
    split
    · exact Micro.totalEq_updateStatus _ _ _ _ h
    · exact h
  · simp only [Micro.Order.updateShipping]
    split
    · exact Micro.totalEq_updateStatus _ _ _ _ h
    · split
      · exact Micro.totalEq_updateStatus _ _ _ _ h
      · exact h

/-- Witness for C2 at the sample order (whose stored totals satisfy the
invariant): a status update and a discount application keep it. -/
theorem order_totals_invariant_witness :
    Micro.totalEq (Micro.sampleOrder.updateStatus Micro.Status.processing "ok" 7) ∧
    Micro.totalEq (Micro.sampleOrder.applyDiscount
      { code := "X", type := Micro.DiscountType.percentage, amount := 10,
        description := "d" }) :=
  ⟨(order_totals_invariant Micro.sampleOrder
      (by norm_num [Micro.totalEq, Micro.sampleOrder]) Micro.sampleItem "p1"
      { code := "X", type := Micro.DiscountType.percentage, amount := 10,
        description := "d" }
      Micro.Status.processing "ok" 7 {} {}).2.2.2.2.1,
   (order_totals_invariant Micro.sampleOrder
      (by norm_num [Micro.totalEq, Micro.sampleOrder]) Micro.sampleItem "p1"
      { code := "X", type := Micro.DiscountType.percentage, amount := 10,
        description := "d" }
      Micro.Status.processing "ok" 7 {} {}).2.2.2.1⟩

/-- C9: `calculateTotals` is idempotent — running it twice in a row with no
intervening mutation gives the very same order (in particular the same
`subtotal`, `taxAmount`, `total`, and the same per-item `subtotal` and
`total`), the effective unit price being `salePrice` when positive and
`price` otherwise. -/
theorem calculateTotals_idempotent (o : Micro.Order) :
    o.calculateTotals.calculateTotals = o.calculateTotals := by
  simp [Micro.Order.calculateTotals, List.map_map, Function.comp]

/-- C10: `removeItem` with a product id absent from the order's items
returns the order completely unchanged — no splice, no totals recompute,
no error. -/
theorem removeItem_absent_frame (o : Micro.Order) (pid : String)
    (h : ∀ i ∈ o.items, i.productId ≠ pid) : o.removeItem pid = o := by
  have hx : ¬ (o.items.any (fun i => i.productId == pid) = true) := by
    simp only [List.any_eq_true, beq_iff_eq]
    rintro ⟨i, hi, hEq⟩
    exact h i hi hEq
  simp [Micro.Order.removeItem, hx]

/-- Witness for C10: removing an unknown product id from the sample order
leaves it untouched. -/
theorem removeItem_absent_frame_witness :
    Micro.sampleOrder.removeItem "zzz" = Micro.sampleOrder :=
  removeItem_absent_frame Micro.sampleOrder "zzz" (by decide)

/-- C7: the consumer acknowledges exactly when parsing succeeded and the
handler completed; a message-parse failure is rejected without requeue
(dead-lettered); any other processing error is rejected with requeue. -/
theorem consumer_ack_protocol (msg : Micro.RawMsg)
    (process : Micro.Envelope → Except Micro.JsError Unit) :
    (Micro.handleMessage msg process = Micro.MsgOutcome.ack ↔
      ∃ env, msg = Micro.RawMsg.wellFormed env ∧ process env = Except.ok ()) ∧
    (Micro.handleMessage Micro.RawMsg.malformed process =
      Micro.MsgOutcome.nackNoRequeue) ∧
    (∀ env s, msg = Micro.RawMsg.wellFormed env →
      process env = Except.error (Micro.JsError.processingError s) →
      Micro.handleMessage msg process = Micro.MsgOutcome.nackRequeue) := by
  refine ⟨?_, ?_, ?_⟩
  · cases msg with
    | malformed => simp [Micro.handleMessage, Micro.parseContent]
    | wellFormed env =>
      cases hp : process env with
      | ok u =>
        cases u
        simp [Micro.handleMessage, Micro.parseContent, hp]
      | error e =>
        cases e <;> simp [Micro.handleMessage, Micro.parseContent, hp]
  · simp [Micro.handleMessage, Micro.parseContent]
  · rintro env s rfl hp
    simp [Micro.handleMessage, Micro.parseContent, hp]

/-- Witness for C7: a well-formed `order.paid` envelope whose handler hits
a transient error is requeued. -/
theorem consumer_ack_protocol_witness :
    Micro.handleMessage (Micro.RawMsg.wellFormed { event := "order.paid" })
      (fun _ => Except.error (Micro.JsError.processingError "db down")) =
      Micro.MsgOutcome.nackRequeue :=
  (consumer_ack_protocol (Micro.RawMsg.wellFormed { event := "order.paid" })
    (fun _ => Except.error (Micro.JsError.processingError "db down"))).2.2
    { event := "order.paid" } "db down" rfl rfl

/-- C5: on an order whose status is `shipped`, `delivered`, `completed`,
`cancelled` or `refunded`, the `addOrderItem`, `removeOrderItem` and
`applyDiscount` controllers all reject with an error (no updated order is
produced, so the order is left unchanged). -/
theorem locked_order_mutations_rejected (u : Micro.User) (o : Micro.Order)
    (productId : String) (quantity : Rat) (info : Micro.ProductInfo)
    (code : String)
    (h : Micro.lockedStatuses.contains o.status = true) :
    (∃ e, Micro.addOrderItemCtrl u o productId quantity info = Except.error e) ∧
    (∃ e, Micro.removeOrderItemCtrl u o productId = Except.error e) ∧
    (∃ e, Micro.applyDiscountCtrl u o code = Except.error e) := by
  refine ⟨?_, ?_, ?_⟩
  · unfold Micro.addOrderItemCtrl
    split_ifs
    all_goals exact ⟨_, rfl⟩
  · unfold Micro.removeOrderItemCtrl
    split_ifs
    all_goals exact ⟨_, rfl⟩
  · unfold Micro.applyDiscountCtrl
    split_ifs
    all_goals exact ⟨_, rfl⟩

/-- Witness for C5: a shipped sample order rejects all three mutations for
its owner. -/
theorem locked_order_mutations_rejected_witness :
    (∃ e, Micro.addOrderItemCtrl Micro.owner1
      { Micro.sampleOrder with status := Micro.Status.shipped } "p2" 1
      { sku := "S2", name := "Gadget", price := 5 } = Except.error e) ∧
    (∃ e, Micro.removeOrderItemCtrl Micro.owner1
      { Micro.sampleOrder with status := Micro.Status.shipped } "p1" =
      Except.error e) ∧
    (∃ e, Micro.applyDiscountCtrl Micro.owner1
      { Micro.sampleOrder with status := Micro.Status.shipped } "SAVE10" =
      Except.error e) :=
  locked_order_mutations_rejected Micro.owner1
    { Micro.sampleOrder with status := Micro.Status.shipped } "p2" 1
    { sku := "S2", name := "Gadget", price := 5 } "SAVE10" (by decide)

/-- Counterexample to C4 as stated: the terminal-status check of
`cancelOrder` runs before any role check and has no admin exemption, so an
admin cancelling a `delivered` order is rejected, not allowed. -/
theorem cancelOrder_admin_terminal_counterexample :
    Micro.cancelOrder Micro.admin1
      { Micro.sampleOrder with status := Micro.Status.delivered } none 0 =
      Except.error "Esta orden no puede ser cancelada" := rfl

/-- C4 (amended): cancellation is refused outright — for admins too — when
status ∈ {delivered, completed, cancelled, refunded}; outside those, a
non-admin owner may cancel only from `pending` / `payment_pending` and is
rejected otherwise; every successful cancellation (owner on an allowed
status, or admin on any non-blocked status) sets status `cancelled` and
records `cancelledAt`. -/
theorem cancelOrder_spec (u : Micro.User) (o : Micro.Order)
    (reason : Option String) (now : Nat) :
    (Micro.cancelBlockedStatuses.contains o.status = true →
      Micro.cancelOrder u o reason now =
        Except.error "Esta orden no puede ser cancelada") ∧
    (Micro.cancelBlockedStatuses.contains o.status = false →
      Micro.isAdmin u = false → u.id = o.userId →
      [Micro.Status.pending, Micro.Status.payment_pending].contains o.status = false →
      Micro.cancelOrder u o reason now =
        Except.error "No puedes cancelar una orden en este estado") ∧
    (Micro.cancelBlockedStatuses.contains o.status = false →
      Micro.isAdmin u = false → u.id = o.userId →
      [Micro.Status.pending, Micro.Status.payment_pending].contains o.status = true →
      ∃ o1, Micro.cancelOrder u o reason now = Except.ok o1 ∧
        o1.status = Micro.Status.cancelled ∧ o1.cancelledAt.isSome = true) ∧
    (Micro.cancelBlockedStatuses.contains o.status = false →
      Micro.isAdmin u = true →
      ∃ o1, Micro.cancelOrder u o reason now = Except.ok o1 ∧
        o1.status = Micro.Status.cancelled ∧ o1.cancelledAt.isSome = true) := by
  refine ⟨?_, ?_, ?_, ?_⟩
  · intro h1
    simp [Micro.cancelOrder, h1]
  · intro h1 h2 h3 h4
    simp [Micro.cancelOrder, h1, h2, h3, h4]
  · intro h1 h2 h3 h4
    have hres : Micro.cancelOrder u o reason now = Except.ok
        (o.updateStatus Micro.Status.cancelled
          (reason.getD "Cancelado por el usuario/administrador") now) := by
      simp [Micro.cancelOrder, h1, h2, h3, h4]
    exact ⟨_, hres, (Micro.updateStatus_cancelled o _ now).1,
      (Micro.updateStatus_cancelled o _ now).2⟩
  · intro h1 h2
    have hres : Micro.cancelOrder u o reason now = Except.ok
        (o.updateStatus Micro.Status.cancelled
          (reason.getD "Cancelado por el usuario/administrador") now) := by
      simp [Micro.cancelOrder, h1, h2]
    exact ⟨_, hres, (Micro.updateStatus_cancelled o _ now).1,
      (Micro.updateStatus_cancelled o _ now).2⟩

/-- Witness for C4 (amended): the non-admin owner cancels the pending
sample order successfully (status `cancelled`, `cancelledAt` set), and is
rejected on the same order in status `processing`. -/
theorem cancelOrder_spec_witness :
    (∃ o1, Micro.cancelOrder Micro.owner1 Micro.sampleOrder none 5 =
      Except.ok o1 ∧ o1.status = Micro.Status.cancelled ∧
      o1.cancelledAt.isSome = true) ∧
    (Micro.cancelOrder Micro.owner1
      { Micro.sampleOrder with status := Micro.Status.processing } none 5 =
      Except.error "No puedes cancelar una orden en este estado") :=
  ⟨(cancelOrder_spec Micro.owner1 Micro.sampleOrder none 5).2.2.1
      (by decide) (by decide) rfl (by decide),
   (cancelOrder_spec Micro.owner1
      { Micro.sampleOrder with status := Micro.Status.processing } none 5).2.1
      (by decide) (by decide) rfl (by decide)⟩

/-- C6: circuit-breaker state machine.  With `failureThreshold = 3`, three
consecutive failing calls from the initial `CLOSED` state end in `OPEN`;
while `OPEN`, a call arriving no more than `resetTimeout` after the last
failure short-circuits (state and wrapped function untouched); once more
than `resetTimeout` has passed, the next call goes through the `HALF_OPEN`
state and invokes the wrapped function; from `HALF_OPEN` with a fresh
success counter, `successThreshold` consecutive successes close the
breaker, and any failure while `HALF_OPEN` reopens it. -/
theorem circuit_breaker_spec (cfg : Micro.CBConfig)
    (h3 : cfg.failureThreshold = 3) (hs1 : 1 ≤ cfg.successThreshold) :
    (∀ t1 t2 t3 : Nat,
      ((Micro.CB.fire cfg
        ((Micro.CB.fire cfg
          ((Micro.CB.fire cfg Micro.CB.initial t1 false).1) t2 false).1)
        t3 false).1).state = Micro.CircuitState.OPEN) ∧
    (∀ (s : Micro.CB) (t now : Nat) (b : Bool),
      s.state = Micro.CircuitState.OPEN → s.lastFailureTime = some t →
      now - t ≤ cfg.resetTimeout →
      Micro.CB.fire cfg s now b = (s, Micro.FireResult.shortCircuited)) ∧
    (∀ (s : Micro.CB) (t now : Nat) (b : Bool),
      s.state = Micro.CircuitState.OPEN → s.lastFailureTime = some t →
      cfg.resetTimeout < now - t →
      Micro.CB.fire cfg s now b =
        Micro.CB.handleCall cfg (Micro.CB.toHalfOpen s) now b ∧
      (Micro.CB.toHalfOpen s).state = Micro.CircuitState.HALF_OPEN ∧
      (Micro.CB.fire cfg s now b).2 = Micro.FireResult.invoked b) ∧
    (∀ (s : Micro.CB) (now : Nat),
      s.state = Micro.CircuitState.HALF_OPEN → s.successCount = 0 →
      ((fun st => (Micro.CB.fire cfg st now true).1)^[cfg.successThreshold] s).state =
        Micro.CircuitState.CLOSED) ∧
    (∀ (s : Micro.CB) (now : Nat),
      s.state = Micro.CircuitState.HALF_OPEN →
      ((Micro.CB.fire cfg s now false).1).state = Micro.CircuitState.OPEN) := by
  refine ⟨?_, ?_, ?_, ?_, ?_⟩
  · intro t1 t2 t3
    simp [Micro.CB.fire, Micro.CB.handleCall, Micro.CB.handleFailure,
      Micro.CB.initial, Micro.CB.toOpen, h3]
  · intro s t now b hst hlft hle
    have hn : ¬ (cfg.resetTimeout < now - t) := not_lt.mpr hle
    simp [Micro.CB.fire, hst, hlft, hn]
  · intro s t now b hst hlft hgt
    refine ⟨?_, rfl, ?_⟩
    · simp [Micro.CB.fire, hst, hlft, hgt]
    · simp [Micro.CB.fire, Micro.CB.handleCall, hst, hlft, hgt]
  · intro s now hs hc0
    exact Micro.halfOpen_success_run cfg cfg.successThreshold s now hs
      (by omega) hs1
  · intro s now hs
    simp [Micro.CB.fire, Micro.CB.handleCall, Micro.CB.handleFailure, hs,
      Micro.CB.toOpen]

/-- Witness for C6 with `failureThreshold = 3`, `resetTimeout = 100`,
`successThreshold = 2`: three failures trip the breaker; at 60ms after a
failure at 50ms the call short-circuits; two successes from `HALF_OPEN`
close it. -/
theorem circuit_breaker_spec_witness :
    ((Micro.CB.fire { failureThreshold := 3, resetTimeout := 100, successThreshold := 2 }
      ((Micro.CB.fire { failureThreshold := 3, resetTimeout := 100, successThreshold := 2 }
        ((Micro.CB.fire { failureThreshold := 3, resetTimeout := 100, successThreshold := 2 }
          Micro.CB.initial 1 false).1) 2 false).1) 3 false).1).state =
      Micro.CircuitState.OPEN ∧
    Micro.CB.fire { failureThreshold := 3, resetTimeout := 100, successThreshold := 2 }
      { state := Micro.CircuitState.OPEN, failureCount := 0, successCount := 0,
        lastFailureTime := some 50 } 60 true =
      ({ state := Micro.CircuitState.OPEN, failureCount := 0, successCount := 0,
         lastFailureTime := some 50 }, Micro.FireResult.shortCircuited) ∧
    ((fun st => (Micro.CB.fire
        { failureThreshold := 3, resetTimeout := 100, successThreshold := 2 }
        st 200 true).1)^[2]
      { state := Micro.CircuitState.HALF_OPEN, failureCount := 0,
        successCount := 0, lastFailureTime := some 50 }).state =
      Micro.CircuitState.CLOSED :=
  ⟨(circuit_breaker_spec
      { failureThreshold := 3, resetTimeout := 100, successThreshold := 2 }
      rfl (by decide)).1 1 2 3,
   (circuit_breaker_spec
      { failureThreshold := 3, resetTimeout := 100, successThreshold := 2 }
      rfl (by decide)).2.1
      { state := Micro.CircuitState.OPEN, failureCount := 0, successCount := 0,
        lastFailureTime := some 50 } 50 60 true rfl rfl (by decide),
   (circuit_breaker_spec
      { failureThreshold := 3, resetTimeout := 100, successThreshold := 2 }
      rfl (by decide)).2.2.2.1
      { state := Micro.CircuitState.HALF_OPEN, failureCount := 0,
        successCount := 0, lastFailureTime := some 50 } 200 rfl rfl⟩
